import Mathlib

/-!
Verification of the gag-stock-clone server (src/gag-stock-clone/server.mjs),
a shallow embedding in Lean 4.

Modelling conventions:
* Timestamps: every call of new Date().toISOString() is one clock read;
  ISO-8601 strings compare the same way as the instants they encode, so a
  clock read is modelled as a natural number (milliseconds).  A monotone
  clock means a later read is numerically at least an earlier one.
* Randomness: each call of Math.random() yields a rational in [0, 1);
  the draws consumed by one invocation of simulateStock are passed in
  explicitly, one per item, in source order.
* The upstream fetch + response.json() pair is modelled by a FetchOutcome:
  either the parsed JSON payload (success) or the thrown exception
  (failure: network error, abort from the timeout controller, or a JSON
  parse error).  The two numeric GitHub fields stargazers_count and
  open_issues_count are non-negative counts, modelled as Option Nat
  (none when the field is absent, matching the ?? 0 default in the code).
* The timing behaviour of fetchWithTimeout and the event-loop behaviour of
  the stream endpoint's tick loop are modelled as explicit traces; the
  single-threaded JS event loop only delivers the close event at await
  points, which the trace model indexes.
-/

namespace GagStockClone

/-- A clock read (new Date().toISOString()), as milliseconds. -/
abbrev Timestamp := Nat

/-- One stock item, as built by simulateStock / fetchMockStock
(server.mjs lines 25-29, 37-41). -/
structure StockItem where
  category : String
  item : String
  inStock : Bool
  lastSeen : Timestamp
  deriving Repr, DecidableEq

/-- The JSON body sent by both endpoints: an updatedAt clock read plus the
item list (server.mjs lines 49 and 65). -/
structure StockSnapshot where
  updatedAt : Timestamp
  items : List StockItem
  deriving Repr, DecidableEq

/-- The two numeric fields read from the upstream JSON payload
(server.mjs lines 38-39); none models an absent field, handled by ?? 0. -/
structure RepoPayload where
  stargazers_count : Option Nat
  open_issues_count : Option Nat
  deriving Repr, DecidableEq

/-- The exception caught by fetchMockStock (server.mjs line 42): a network
failure or abort thrown by fetch, or a parse failure thrown by
response.json() carrying the offending raw text. -/
inductive UpstreamError where
  | networkError
  | abortError
  | jsonParseError (raw : String)
  deriving Repr, DecidableEq

/-- Joint result of the awaits on lines 34-35 of server.mjs: either the
parsed payload or the thrown exception. -/
inductive FetchOutcome where
  | success (repo : RepoPayload)
  | failure (e : UpstreamError)
  deriving Repr, DecidableEq

/-- simulateStock (server.mjs lines 23-30): one clock read now shared by
all three items, and one Math.random() > 0.5 draw per item. -/
def simulateStock (r₁ r₂ r₃ : ℚ) (now : Timestamp) : List StockItem :=
  [ { category := "Seeds", item := "Sunflower Seed",
      inStock := decide (r₁ > 1/2), lastSeen := now },
    { category := "Eggs", item := "Chicken Egg",
      inStock := decide (r₂ > 1/2), lastSeen := now },
    { category := "Gear", item := "Watering Can",
      inStock := decide (r₃ > 1/2), lastSeen := now } ]

/-- fetchMockStock (server.mjs lines 32-45).  On success the parity of the
two counts (defaulted to 0 when absent) decides the first two flags and the
third is constantly true; any caught exception falls back to
simulateStock.  The random draws are those the fallback would consume;
the success path never reads them, as in the source. -/
def fetchMockStock (outcome : FetchOutcome) (r₁ r₂ r₃ : ℚ)
    (now : Timestamp) : List StockItem :=
  match outcome with
  | FetchOutcome.success repo =>
      [ { category := "Seeds", item := "Sunflower Seed",
          inStock := decide ((repo.stargazers_count.getD 0) % 2 = 0),
          lastSeen := now },
        { category := "Eggs", item := "Chicken Egg",
          inStock := decide ((repo.open_issues_count.getD 0) % 2 = 1),
          lastSeen := now },
        { category := "Gear", item := "Watering Can",
          inStock := true, lastSeen := now } ]
  | FetchOutcome.failure _ => simulateStock r₁ r₂ r₃ now

/-- HTTP result of the one-shot endpoint: either a JSON snapshot body or an
error status.  The handler on lines 47-50 has no error branch, so the
error constructor is never produced; it is present so that absence of an
error response is a statement, not a typing accident. -/
inductive HttpResult where
  | ok (snap : StockSnapshot)
  | error (status : Nat)
  deriving Repr, DecidableEq

/-- Snapshot body built by the one-shot handler (server.mjs lines 48-49):
tFetch is the clock read inside fetchMockStock (or simulateStock), tResp
the separate clock read on line 49. -/
def apiStock (outcome : FetchOutcome) (r₁ r₂ r₃ : ℚ)
    (tFetch tResp : Timestamp) : StockSnapshot :=
  { updatedAt := tResp, items := fetchMockStock outcome r₁ r₂ r₃ tFetch }

/-- The full one-shot handler GET /api/stock (server.mjs lines 47-50):
always res.json of the snapshot, never an error status. -/
def apiStockHandler (outcome : FetchOutcome) (r₁ r₂ r₃ : ℚ)
    (tFetch tResp : Timestamp) : HttpResult :=
  HttpResult.ok (apiStock outcome r₁ r₂ r₃ tFetch tResp)

/-- Payload of one streamed stock event (server.mjs lines 64-65): same
two clock reads as the one-shot path, tResp being the read on line 65. -/
def streamPayload (outcome : FetchOutcome) (r₁ r₂ r₃ : ℚ)
    (tFetch tResp : Timestamp) : StockSnapshot :=
  { updatedAt := tResp, items := fetchMockStock outcome r₁ r₂ r₃ tFetch }

/-- Outcome of fetchWithTimeout (server.mjs lines 10-21) as a function of
when the underlying fetch would settle on its own (resolveAt, in ms from
the call; none if it never would).  The timer set on line 12 aborts the
in-flight fetch at ms, so the fetch rejects then; if the fetch settles
strictly before the timer fires it resolves at its own time. -/
inductive FetchResult where
  | resolved (t : Nat)
  | aborted (t : Nat)
  deriving Repr, DecidableEq

/-- Settling behaviour of fetchWithTimeout (server.mjs lines 10-21). -/
def fetchWithTimeoutResult (resolveAt : Option Nat) (ms : Nat) : FetchResult :=
  match resolveAt with
  | some t => if t < ms then FetchResult.resolved t else FetchResult.aborted ms
  | none => FetchResult.aborted ms

/-- The time at which fetchWithTimeout settles (returns or throws). -/
def resultTime : FetchResult → Nat
  | FetchResult.resolved t => t
  | FetchResult.aborted t => t

/-- The timeout fetchMockStock passes to fetchWithTimeout
(server.mjs line 34); it is also the declared default on line 10. -/
def fetchMockStockTimeoutMs : Nat := 2000

/-- The observable timer events of one fetchWithTimeout call: the
setTimeout on line 12, the clearTimeout calls on lines 15 and 18, and the
terminal return (line 16) or rethrow (line 19). -/
inductive TimerEvent where
  | setTimer
  | clearTimer
  | returned
  | threw
  deriving Repr, DecidableEq

/-- Event trace of one fetchWithTimeout call (server.mjs lines 10-21):
the try branch runs clearTimeout then return; the catch branch runs
clearTimeout then throw. -/
def fetchWithTimeoutTrace (resolveAt : Option Nat) (ms : Nat) :
    List TimerEvent :=
  match fetchWithTimeoutResult resolveAt ms with
  | FetchResult.resolved _ =>
      [TimerEvent.setTimer, TimerEvent.clearTimer, TimerEvent.returned]
  | FetchResult.aborted _ =>
      [TimerEvent.setTimer, TimerEvent.clearTimer, TimerEvent.threw]

/-- The observable actions of the stream endpoint's tick loop
(server.mjs lines 62-70): the awaited provider call on line 64, the pair
of res.write calls on lines 66-67 emitting one stock event, and the
10000 ms setTimeout wait on line 68. -/
inductive LoopAction where
  | providerCall
  | writeStockEvent
  | wait (ms : Nat)
  deriving Repr, DecidableEq

/-- Whether the channel is closed once k awaits of the tick loop have
completed, when the client disconnect (req close event, line 60) is
delivered during await number d (disconnect = some d; none means the
client never disconnects).  The close callback sets active to false, and
in the single-threaded event loop it can only run while the loop is
suspended at an await, so active is false exactly when the channel is
closed. -/
def channelClosed (disconnect : Option Nat) (k : Nat) : Bool :=
  match disconnect with
  | none => false
  | some d => decide (d < k)

/-- One step of the tick loop (server.mjs lines 62-70), with k awaits
completed so far and fuel bounding the number of observed iterations.
Each iteration: the while (active) check on line 63, then the awaited
provider call (await number k), then the two writes of lines 66-67 and
the wait of line 68 (await number k + 1) with no further check of active
in between.  Each emitted action is paired with whether the channel was
already closed when the action was performed. -/
def tickTraceAux (disconnect : Option Nat) :
    Nat → Nat → List (LoopAction × Bool)
  | _, 0 => []
  | k, fuel + 1 =>
      if channelClosed disconnect k then []
      else
        (LoopAction.providerCall, channelClosed disconnect k) ::
        (LoopAction.writeStockEvent, channelClosed disconnect (k + 1)) ::
        (LoopAction.wait 10000, channelClosed disconnect (k + 1)) ::
        tickTraceAux disconnect (k + 2) fuel

/-- The trace of a subscription: tick() is invoked immediately at
subscribe time (server.mjs line 72), so the loop starts with zero awaits
completed. -/
def tickTrace (disconnect : Option Nat) (fuel : Nat) :
    List (LoopAction × Bool) :=
  tickTraceAux disconnect 0 fuel

/-- Number of write actions performed while the channel was already
closed, in a trace of the tick loop. -/
def closedWriteCount (tr : List (LoopAction × Bool)) : Nat :=
  tr.countP (fun a => decide (a.1 = LoopAction.writeStockEvent) && a.2)

/-! ## Theorems -/

/-- Before the loop's first await the close callback cannot have run. -/
theorem channelClosed_zero (d : Option Nat) : channelClosed d 0 = false := by
  cases d <;> simp [channelClosed]

/-- Closure is permanent: once closed after k awaits, still closed later. -/
theorem channelClosed_mono (d : Option Nat) (k : Nat)
    (h : channelClosed d k = true) : channelClosed d (k + 1) = true := by
  cases d with
  | none => simp [channelClosed] at h
  | some n => simp only [channelClosed, decide_eq_true_eq] at h ⊢; omega

/-- A loop iteration that starts on a closed channel emits nothing: the
while (active) check on line 63 stops the loop. -/
theorem tickTraceAux_nil_of_closed (d : Option Nat) (k fuel : Nat)
    (h : channelClosed d k = true) : tickTraceAux d k fuel = [] := by
  cases fuel <;> simp [tickTraceAux, h]

/-- C1: For every successful upstream call, the snapshot returned by the
provider has item 1 inStock iff the primary count (stargazers_count) is
even, item 2 inStock iff the secondary count (open_issues_count) is odd,
and item 3 inStock always; an absent numeric field is replaced by 0 before
the parity check.  In particular primary 4 / secondary 5 yields
true/true/true, primary 3 / secondary 2 yields false/false/true, and both
fields absent yields true/false/true (parity of 0). -/
theorem fetchMockStock_success_parity (repo : RepoPayload) (r₁ r₂ r₃ : ℚ)
    (now : Timestamp) :
    (fetchMockStock (FetchOutcome.success repo) r₁ r₂ r₃ now).map
        StockItem.inStock =
      [decide (Even (repo.stargazers_count.getD 0)),
       decide (Odd (repo.open_issues_count.getD 0)), true] ∧
    (fetchMockStock (FetchOutcome.success ⟨some 4, some 5⟩) r₁ r₂ r₃
        now).map StockItem.inStock = [true, true, true] ∧
    (fetchMockStock (FetchOutcome.success ⟨some 3, some 2⟩) r₁ r₂ r₃
        now).map StockItem.inStock = [false, false, true] ∧
    (fetchMockStock (FetchOutcome.success ⟨none, none⟩) r₁ r₂ r₃
        now).map StockItem.inStock = [true, false, true] := by
  refine ⟨?_, ?_, ?_, ?_⟩ <;>
    simp [fetchMockStock, Nat.even_iff, Nat.odd_iff]

/-- C2: The provider never fails: whatever the upstream outcome (success,
network error, abort, or parse exception), fetchMockStock returns a
well-formed 3-item list — on any caught exception it returns the local
placeholder from simulateStock — and the one-shot handler always answers
with an ok snapshot, never an error status. -/
theorem fetchMockStock_never_fails (outcome : FetchOutcome) (r₁ r₂ r₃ : ℚ)
    (tFetch tResp : Timestamp) :
    apiStockHandler outcome r₁ r₂ r₃ tFetch tResp =
      HttpResult.ok (apiStock outcome r₁ r₂ r₃ tFetch tResp) ∧
    (∀ status, apiStockHandler outcome r₁ r₂ r₃ tFetch tResp ≠
      HttpResult.error status) ∧
    (fetchMockStock outcome r₁ r₂ r₃ tFetch).length = 3 ∧
    (∀ e, fetchMockStock (FetchOutcome.failure e) r₁ r₂ r₃ tFetch =
      simulateStock r₁ r₂ r₃ tFetch) := by
  refine ⟨rfl, fun status h => by simp [apiStockHandler] at h, ?_, fun e => rfl⟩
  cases outcome <;> simp [fetchMockStock, simulateStock]

/-- C3: Every item list the provider produces, on the success path and on
the fallback path alike, has exactly 3 elements in the fixed category
order Seeds/Sunflower Seed, Eggs/Chicken Egg, Gear/Watering Can. -/
theorem fetchMockStock_items_fixed_order (outcome : FetchOutcome)
    (r₁ r₂ r₃ : ℚ) (now : Timestamp) :
    (fetchMockStock outcome r₁ r₂ r₃ now).map
        (fun it => (it.category, it.item)) =
      [("Seeds", "Sunflower Seed"), ("Eggs", "Chicken Egg"),
       ("Gear", "Watering Can")] ∧
    (fetchMockStock outcome r₁ r₂ r₃ now).length = 3 := by
  cases outcome <;> simp [fetchMockStock, simulateStock]

/-- C6: On every upstream failure — network error, abort, or non-numeric
payload — the provider returns the local placeholder from simulateStock,
in which each of the three items gets its own random draw (item i's flag
is its draw compared against 1/2, independent of the other draws), and
the result does not depend on which exception was caught or on any
partial data it carries. -/
theorem fetchMockStock_fallback_random (e e' : UpstreamError)
    (r₁ r₂ r₃ : ℚ) (now : Timestamp) :
    fetchMockStock (FetchOutcome.failure e) r₁ r₂ r₃ now =
      simulateStock r₁ r₂ r₃ now ∧
    fetchMockStock (FetchOutcome.failure e) r₁ r₂ r₃ now =
      fetchMockStock (FetchOutcome.failure e') r₁ r₂ r₃ now ∧
    (simulateStock r₁ r₂ r₃ now).map StockItem.inStock =
      [decide (r₁ > 1/2), decide (r₂ > 1/2), decide (r₃ > 1/2)] := by
  exact ⟨rfl, rfl, by simp [simulateStock]⟩

/-- C4 counterexample: updatedAt comes from a second clock read (line 49,
resp. line 65) taken after fetchMockStock already stamped the items, so
when that read is later (here construction at 0, response at 1, a monotone
clock), no item's lastSeen equals the snapshot's updatedAt — the claim
that every served item's lastSeen equals updatedAt is false. -/
theorem lastSeen_eq_updatedAt_cex :
    (apiStock (FetchOutcome.failure UpstreamError.networkError)
        0 0 0 0 1).updatedAt = 1 ∧
    (apiStock (FetchOutcome.failure UpstreamError.networkError)
        0 0 0 0 1).items.map StockItem.lastSeen = [0, 0, 0] ∧
    ¬ (∀ it ∈ (apiStock (FetchOutcome.failure UpstreamError.networkError)
        0 0 0 0 1).items,
        it.lastSeen = (apiStock (FetchOutcome.failure
          UpstreamError.networkError) 0 0 0 0 1).updatedAt) := by
  refine ⟨rfl, by simp [apiStock, fetchMockStock, simulateStock], ?_⟩
  decide

/-- C4 amended: in every snapshot served by either endpoint, lastSeen is
identical across the three items (the single clock read taken inside the
provider), and under a monotone clock it is at most the snapshot's
updatedAt, which is a separate, later clock read; equality holds exactly
when the two reads coincide. -/
theorem lastSeen_uniform_le_updatedAt (outcome : FetchOutcome)
    (r₁ r₂ r₃ : ℚ) (tFetch tResp : Timestamp) (h : tFetch ≤ tResp) :
    (apiStock outcome r₁ r₂ r₃ tFetch tResp).items.map StockItem.lastSeen =
      [tFetch, tFetch, tFetch] ∧
    (∀ it ∈ (apiStock outcome r₁ r₂ r₃ tFetch tResp).items,
      it.lastSeen ≤ (apiStock outcome r₁ r₂ r₃ tFetch tResp).updatedAt) ∧
    (streamPayload outcome r₁ r₂ r₃ tFetch tResp).items.map
        StockItem.lastSeen = [tFetch, tFetch, tFetch] ∧
    (∀ it ∈ (streamPayload outcome r₁ r₂ r₃ tFetch tResp).items,
      it.lastSeen ≤
        (streamPayload outcome r₁ r₂ r₃ tFetch tResp).updatedAt) := by
  cases outcome <;>
    simp_all [apiStock, streamPayload, fetchMockStock, simulateStock]

/-- Witness for the amended C4 at outcome = failure, draws 0, clock reads
2 then 5. -/
theorem lastSeen_uniform_le_updatedAt_witness :
    (2 : Timestamp) ≤ 5 ∧
    ((apiStock (FetchOutcome.failure UpstreamError.abortError)
        0 0 0 2 5).items.map StockItem.lastSeen = [2, 2, 2] ∧
    (∀ it ∈ (apiStock (FetchOutcome.failure UpstreamError.abortError)
        0 0 0 2 5).items,
      it.lastSeen ≤ (apiStock (FetchOutcome.failure
        UpstreamError.abortError) 0 0 0 2 5).updatedAt) ∧
    (streamPayload (FetchOutcome.failure UpstreamError.abortError)
        0 0 0 2 5).items.map StockItem.lastSeen = [2, 2, 2] ∧
    (∀ it ∈ (streamPayload (FetchOutcome.failure UpstreamError.abortError)
        0 0 0 2 5).items,
      it.lastSeen ≤ (streamPayload (FetchOutcome.failure
        UpstreamError.abortError) 0 0 0 2 5).updatedAt)) :=
  ⟨by decide,
   lastSeen_uniform_le_updatedAt (FetchOutcome.failure
     UpstreamError.abortError) 0 0 0 2 5 (by decide)⟩

/-- C10: in both endpoints updatedAt is a separate clock read performed
after fetchMockStock constructed the items with their lastSeen stamps, so
under a monotone clock (the later read is at least the earlier one) every
item's lastSeen is at most the snapshot's updatedAt. -/
theorem updatedAt_separate_later_read (outcome : FetchOutcome)
    (r₁ r₂ r₃ : ℚ) (tFetch tResp : Timestamp) (h : tFetch ≤ tResp) :
    (apiStock outcome r₁ r₂ r₃ tFetch tResp).updatedAt = tResp ∧
    (streamPayload outcome r₁ r₂ r₃ tFetch tResp).updatedAt = tResp ∧
    (∀ it ∈ (apiStock outcome r₁ r₂ r₃ tFetch tResp).items,
      it.lastSeen ≤ (apiStock outcome r₁ r₂ r₃ tFetch tResp).updatedAt) ∧
    (∀ it ∈ (streamPayload outcome r₁ r₂ r₃ tFetch tResp).items,
      it.lastSeen ≤
        (streamPayload outcome r₁ r₂ r₃ tFetch tResp).updatedAt) := by
  refine ⟨rfl, rfl, ?_, ?_⟩ <;> cases outcome <;>
    simp_all [apiStock, streamPayload, fetchMockStock, simulateStock]

/-- Witness for C10 at outcome = success with both counts present, draws
0, clock reads 7 then 7 (the reads may coincide). -/
theorem updatedAt_separate_later_read_witness :
    (7 : Timestamp) ≤ 7 ∧
    ((apiStock (FetchOutcome.success ⟨some 4, some 5⟩)
        0 0 0 7 7).updatedAt = 7 ∧
    (streamPayload (FetchOutcome.success ⟨some 4, some 5⟩)
        0 0 0 7 7).updatedAt = 7 ∧
    (∀ it ∈ (apiStock (FetchOutcome.success ⟨some 4, some 5⟩)
        0 0 0 7 7).items,
      it.lastSeen ≤ (apiStock (FetchOutcome.success ⟨some 4, some 5⟩)
        0 0 0 7 7).updatedAt) ∧
    (∀ it ∈ (streamPayload (FetchOutcome.success ⟨some 4, some 5⟩)
        0 0 0 7 7).items,
      it.lastSeen ≤ (streamPayload (FetchOutcome.success ⟨some 4, some 5⟩)
        0 0 0 7 7).updatedAt)) :=
  ⟨by decide,
   updatedAt_separate_later_read (FetchOutcome.success ⟨some 4, some 5⟩)
     0 0 0 7 7 (by decide)⟩

/-- C7: every outbound upstream call is bounded by the fixed 2000 ms
timeout that fetchMockStock passes to fetchWithTimeout: whatever the
underlying fetch would do on its own — settle at any time, or never
settle at all — the call settles within 2000 ms, and a fetch that never
settles on its own is terminated at 2000 ms by the abort signal from the
timer, not by any timeout of its own. -/
theorem fetchWithTimeout_bounded (resolveAt : Option Nat) :
    resultTime (fetchWithTimeoutResult resolveAt fetchMockStockTimeoutMs)
      ≤ 2000 ∧
    fetchWithTimeoutResult none fetchMockStockTimeoutMs =
      FetchResult.aborted 2000 ∧
    fetchMockStockTimeoutMs = 2000 := by
  refine ⟨?_, rfl, rfl⟩
  cases resolveAt with
  | none => simp [fetchWithTimeoutResult, resultTime, fetchMockStockTimeoutMs]
  | some t =>
      simp only [fetchWithTimeoutResult, fetchMockStockTimeoutMs]
      split
      · simp only [resultTime]; omega
      · simp [resultTime]

/-- C9: on every path through fetchWithTimeout — the fetch resolving or
rejecting — clearTimeout is invoked on the abort timer before the function
returns or rethrows, so no timer is left pending after the call. -/
theorem fetchWithTimeout_clears_timer (resolveAt : Option Nat) (ms : Nat) :
    fetchWithTimeoutTrace resolveAt ms =
      [TimerEvent.setTimer, TimerEvent.clearTimer, TimerEvent.returned] ∨
    fetchWithTimeoutTrace resolveAt ms =
      [TimerEvent.setTimer, TimerEvent.clearTimer, TimerEvent.threw] := by
  cases resolveAt with
  | none => right; rfl
  | some t =>
      by_cases h : t < ms
      · left; simp [fetchWithTimeoutTrace, fetchWithTimeoutResult, h]
      · right; simp [fetchWithTimeoutTrace, fetchWithTimeoutResult, h]

/-- Every provider call in a tick-loop trace starts on an open channel:
the active flag is rechecked before each call. -/
theorem tickTraceAux_providerCall_open (d : Option Nat) :
    ∀ fuel k, ∀ a ∈ tickTraceAux d k fuel,
      a.1 = LoopAction.providerCall → a.2 = false := by
  intro fuel
  induction fuel with
  | zero => intro k a ha; simp [tickTraceAux] at ha
  | succ n ih =>
      intro k a ha hcall
      rw [tickTraceAux] at ha
      by_cases hc : channelClosed d k = true
      · simp [hc] at ha
      · rw [if_neg hc] at ha
        simp only [List.mem_cons] at ha
        rcases ha with rfl | rfl | rfl | ha
        · simpa using hc
        · exact absurd hcall (by simp)
        · exact absurd hcall (by simp)
        · exact ih (k + 2) a ha hcall

/-- At most one write lands on a closed channel in any tick-loop trace:
only the iteration whose provider call was in flight when the client
disconnected writes after closure; the next check stops the loop. -/
theorem tickTraceAux_closedWrites_le_one (d : Option Nat) :
    ∀ fuel k, closedWriteCount (tickTraceAux d k fuel) ≤ 1 := by
  intro fuel
  induction fuel with
  | zero => intro k; simp [tickTraceAux, closedWriteCount]
  | succ n ih =>
      intro k
      rw [tickTraceAux]
      by_cases hc : channelClosed d k = true
      · simp [hc, closedWriteCount]
      · rw [if_neg hc]
        by_cases h1 : channelClosed d (k + 1) = true
        · rw [tickTraceAux_nil_of_closed d (k + 2) n
            (channelClosed_mono d (k + 1) h1)]
          simp [closedWriteCount, List.countP_cons, h1]
        · have hrec := ih (k + 2)
          simp only [closedWriteCount, List.countP_cons] at hrec ⊢
          simp only [Bool.not_eq_true] at h1
          simp [h1]
          exact hrec

/-- C5 counterexample: when the client disconnects during the very first
provider call (disconnect delivered at await 0), the loop still performs
its write on the now-closed channel — the trace of the first iteration
contains a write with the channel closed, so closure is not checked
before each write and a write after closure is attempted. -/
theorem stream_write_after_close_cex :
    tickTrace (some 0) 1 =
      [(LoopAction.providerCall, false),
       (LoopAction.writeStockEvent, true),
       (LoopAction.wait 10000, true)] ∧
    ¬ (∀ a ∈ tickTrace (some 0) 1,
        a.1 = LoopAction.writeStockEvent → a.2 = false) := by
  decide

/-- C5 amended: closure is checked once per cycle iteration, before the
provider call — so no provider call ever starts on a closed channel —
and after the channel signals closure at most one further write (the one
belonging to the iteration already in flight) is ever attempted. -/
theorem stream_close_checked_per_iteration (d : Option Nat) (fuel : Nat) :
    (∀ a ∈ tickTrace d fuel,
      a.1 = LoopAction.providerCall → a.2 = false) ∧
    closedWriteCount (tickTrace d fuel) ≤ 1 :=
  ⟨tickTraceAux_providerCall_open d fuel 0,
   tickTraceAux_closedWrites_le_one d fuel 0⟩

/-- The tick loop of a never-disconnecting subscriber repeats the same
iteration block: provider call, write, 10000 ms wait. -/
theorem tickTraceAux_none (fuel : Nat) : ∀ k,
    tickTraceAux none k fuel = (List.replicate fuel
      [(LoopAction.providerCall, false),
       (LoopAction.writeStockEvent, false),
       (LoopAction.wait 10000, false)]).flatten := by
  induction fuel with
  | zero => intro k; simp [tickTraceAux]
  | succ n ih =>
      intro k
      simp [tickTraceAux, channelClosed, ih, List.replicate_succ]

/-- C8: the cycle begins immediately on subscribe — the first action of
every subscription's trace is the provider call, with no wait before it —
and as long as the client stays connected each iteration performs, in
order, one provider call, one discrete write of the snapshot as a stock
event, then a fixed 10000 ms wait, repeating. -/
theorem stream_cycle_order (d : Option Nat) (fuel : Nat) :
    tickTrace none fuel = (List.replicate fuel
      [(LoopAction.providerCall, false),
       (LoopAction.writeStockEvent, false),
       (LoopAction.wait 10000, false)]).flatten ∧
    (tickTrace d (fuel + 1)).head? =
      some (LoopAction.providerCall, false) := by
  refine ⟨tickTraceAux_none fuel 0, ?_⟩
  rw [tickTrace, tickTraceAux, if_neg (by simp [channelClosed_zero])]
  simp [channelClosed_zero]

end GagStockClone
